import Mathlib

/-!
Verification of the Superset front-end components against their
natural-language specification.

The development shallowly embeds the relevant TypeScript sources:

* `src/superset-frontend/src/components/DatabaseSelector.tsx` — the cascading
  database → schema selector (`fetchSchemas`, `changeDataBase`,
  `onSelectChange`, `dbMutator`, and the promise continuations of the schema
  fetch);
* `src/superset-frontend/src/dashboard/components/ImportModal/index.tsx` and
  the dataset import modal — `onCancel`, `changeFile`, `submit`, and the
  `disabled` expression of the Upload button;
* the dashboard/dataset import helpers (`post`, `importDataset`);
* the chart list view (`getFilters`, `getData`, `PAGE_SIZE`).

React function components re-render after state setters run; within a single
event handler, the local constants (`currentDbId`, `currentSchema`, …) hold
the values captured at render time, and the `useState` setters only take
effect afterwards.  Handlers are therefore embedded as pure functions from
the pre-handler state to the post-handler state, together with the list of
callback invocations (events) the handler performs in order; values read by
callbacks inside the handler come from the pre-handler state, exactly as the
closures do in the source.  Promise continuations (`.then` / `.catch`) are
separate functions, applied only after the handler has returned, which makes
"synchronously, before the fetch resolves" directly expressible.
-/

/-! ### Rison encoding (the `rison.encode` calls in the source)

Rison serialises an object as `(key:value,…)`, `true` as `!t`, `false` as
`!f`, numbers in decimal and identifier-like strings bare.  Only flat
objects of atomic values appear in the embedded sources. -/

inductive RisonAtom where
  | bool (b : Bool)
  | nat (n : Nat)
  | str (s : String)
  deriving Repr, DecidableEq

def RisonAtom.encode : RisonAtom → String
  | .bool true => "!t"
  | .bool false => "!f"
  | .nat n => toString n
  | .str s => s

def risonEncodeObj (fields : List (String × RisonAtom)) : String :=
  "(" ++ String.intercalate "," (fields.map fun kv => kv.1 ++ ":" ++ kv.2.encode) ++ ")"

/-! ### JS helpers -/

/-- Truthiness of a JS number-or-null: `null`/`undefined` (`none`) and `0`
are falsy. -/
def jsTruthy : Option Nat → Bool
  | none => false
  | some n => decide (n ≠ 0)

/-- `` `${user?.userId}` `` — template interpolation of an optional number;
an absent value prints as `undefined`. -/
def jsInterpolate : Option Nat → String
  | some n => toString n
  | none => "undefined"

/-! ### DatabaseSelector: data model

`src/superset-frontend/src/components/DatabaseSelector.tsx` -/

/-- A schema option as built in `fetchSchemas`:
`{ value: s, label: s, title: s }`. -/
structure SchemaOption where
  value : String
  label : String
  title : String
  deriving Repr, DecidableEq

/-- `json.result.map(s => ({value: s, label: s, title: s}))` pointwise. -/
def schemaOptionOf (s : String) : SchemaOption :=
  { value := s, label := s, title := s }

/-- A database row from `GET /api/v1/database/` (the fields `dbMutator`
reads). -/
structure DbRow where
  id : Nat
  backend : String
  database_name : String
  deriving Repr, DecidableEq

/-- A mapped row produced by `dbMutator`: the row spread plus the computed
`label`. -/
structure DbOption where
  id : Nat
  backend : String
  database_name : String
  label : String
  deriving Repr, DecidableEq

/-- The database object handed to `changeDataBase`; only its `id` is read
(`db ? db.id : null`). -/
structure Db where
  id : Nat
  deriving Repr, DecidableEq

/-- The props the embedded handlers read.  The three `has…` flags record
whether the optional callbacks `onSchemasLoad`, `getDbList` and `onChange`
were supplied. -/
structure SelectorProps where
  dbId : Nat
  hasOnSchemasLoad : Bool
  hasGetDbList : Bool
  hasOnChange : Bool
  deriving Repr, DecidableEq

/-- A schema-list request issued by `fetchSchemas` via
`SupersetClient.get({endpoint})`.  Issued requests are recorded in the
state; their continuations (`resolveSchemaFetchOk` / `resolveSchemaFetchErr`)
are applied separately, when and if a response arrives.  Nothing cancels an
issued request. -/
structure IssuedFetch where
  dbId : Nat
  force : Bool
  endpoint : String
  deriving Repr, DecidableEq

/-- The `useState` cells of the component, plus the record of issued (and
not yet consumed) schema fetches. -/
structure SelectorState where
  currentDbId : Option Nat
  currentSchema : Option String
  schemaLoading : Bool
  schemaOptions : List SchemaOption
  issuedFetches : List IssuedFetch
  deriving Repr, DecidableEq

/-- Callback invocations performed by the selector handlers, in order. -/
inductive SelEvent where
  | onSchemaChange (schema : Option String)
  | onDbChange (db : Option Db)
  | onSchemasLoad (options : List SchemaOption)
  | onChangeCb (dbId : Option Nat) (schema : Option String)
  | handleError (msg : String)
  | getDbList (rows : List DbRow)
  deriving Repr, DecidableEq

def SelEvent.isHandleError : SelEvent → Bool
  | .handleError _ => true
  | _ => false

def SelEvent.isOnChangeCb : SelEvent → Bool
  | .onChangeCb _ _ => true
  | _ => false

/-! ### DatabaseSelector: operations -/

/-- `rison.encode({force: Boolean(forceRefresh)})`. -/
def risonQueryParams (forceRefresh : Bool) : String :=
  risonEncodeObj [("force", RisonAtom.bool forceRefresh)]

/-- The template literal
`` `/api/v1/database/${actualDbId}/schemas/?q=${queryParams}` ``. -/
def schemasEndpoint (actualDbId : Nat) (forceRefresh : Bool) : String :=
  "/api/v1/database/" ++ toString actualDbId ++
    ("/schemas/?q=" ++ risonQueryParams forceRefresh)

/-- `const actualDbId = databaseId || dbId;` — the argument when truthy,
otherwise the `dbId` prop. -/
def actualDbIdOf (databaseId : Option Nat) (propDbId : Nat) : Option Nat :=
  if jsTruthy databaseId then databaseId else some propDbId

/-- `fetchSchemas(databaseId, forceRefresh)`: when `actualDbId` is truthy it
sets the loading flag, builds the endpoint and issues the request (returning
the pending request, i.e. a pending promise); otherwise it does nothing and
returns `Promise.resolve()` (`none`).  The `.then`/`.catch` continuations
are `resolveSchemaFetchOk`/`resolveSchemaFetchErr` below. -/
def fetchSchemas (props : SelectorProps) (s : SelectorState)
    (databaseId : Option Nat) (forceRefresh : Bool) :
    SelectorState × Option IssuedFetch :=
  match actualDbIdOf databaseId props.dbId with
  | some n =>
      if n ≠ 0 then
        let f : IssuedFetch := ⟨n, forceRefresh, schemasEndpoint n forceRefresh⟩
        ({ s with schemaLoading := true, issuedFetches := s.issuedFetches ++ [f] },
         some f)
      else (s, none)
  | none => (s, none)

/-- The `.then` continuation of a schema fetch: maps the response into
options, stores them, clears the loading flag, and invokes `onSchemasLoad`
when supplied.  Applied whenever the response of some issued fetch arrives;
the source keeps no generation counter, so the continuation of any issued
fetch — including one issued before a later `changeDataBase` — may run. -/
def resolveSchemaFetchOk (props : SelectorProps) (s : SelectorState)
    (result : List String) : SelectorState × List SelEvent :=
  let options := result.map schemaOptionOf
  ({ s with schemaOptions := options, schemaLoading := false },
   if props.hasOnSchemasLoad then [SelEvent.onSchemasLoad options] else [])

def fetchSchemasErrorMsg : String := "Error while fetching schema list"

/-- The `.catch` continuation of a schema fetch: empties the options, clears
the loading flag and reports the error.  It is a total function — the
rejection is consumed and the promise chain resolves. -/
def resolveSchemaFetchErr (s : SelectorState) : SelectorState × List SelEvent :=
  ({ s with schemaOptions := [], schemaLoading := false },
   [SelEvent.handleError fetchSchemasErrorMsg])

/-- `onSelectChange()`: invokes `onChange` (when supplied) with the
render-captured `currentDbId`/`currentSchema` — the values of the state `s`
the enclosing handler closed over, not any values queued by setters during
the handler. -/
def onSelectChange (props : SelectorProps) (s : SelectorState) : List SelEvent :=
  if props.hasOnChange then [SelEvent.onChangeCb s.currentDbId s.currentSchema]
  else []

def accessDeniedMsg : String := "It seems you don\x27t have access to any database"

/-- `dbMutator(data)`: forwards the raw result to `getDbList` when supplied,
raises the access error when the result is empty, and returns the rows with
a computed `label`. -/
def dbMutator (props : SelectorProps) (result : List DbRow) :
    List SelEvent × List DbOption :=
  let ev1 := if props.hasGetDbList then [SelEvent.getDbList result] else []
  let ev2 := if result.length = 0 then [SelEvent.handleError accessDeniedMsg] else []
  (ev1 ++ ev2,
   result.map fun row =>
     { id := row.id, backend := row.backend, database_name := row.database_name,
       label := row.backend ++ " " ++ row.database_name })

/-- `changeDataBase(db, force)`: synchronously empties the schema options,
notifies `onSchemaChange(null)` and `onDbChange(db)`, issues the schema
fetch for the new id, queues the `currentDbId`/`currentSchema` updates, and
calls `onSelectChange` (which reads the render-captured, pre-handler
values).  Returns the post-handler state, the events in call order, and the
fetch this handler issued (if any) — still unresolved when the handler
returns. -/
def changeDataBase (props : SelectorProps) (s : SelectorState)
    (db : Option Db) (force : Bool) :
    SelectorState × List SelEvent × Option IssuedFetch :=
  let newDbId : Option Nat := db.map Db.id
  let s1 := { s with schemaOptions := [] }
  let issued := fetchSchemas props s1 newDbId force
  let s3 := { issued.1 with currentDbId := newDbId, currentSchema := none }
  (s3,
   [SelEvent.onSchemaChange none, SelEvent.onDbChange db] ++ onSelectChange props s,
   issued.2)

/-- `changeSchema(schemaOpt, force)`: included for completeness of the
selector embedding. -/
def changeSchema (props : SelectorProps) (s : SelectorState)
    (schemaOpt : Option SchemaOption) : SelectorState × List SelEvent :=
  let schema : Option String := schemaOpt.map SchemaOption.value
  ({ s with currentSchema := schema },
   [SelEvent.onSchemaChange schema] ++ onSelectChange props s)

/-! ### Import modals

`src/superset-frontend/src/dashboard/components/ImportModal/index.tsx`
(`ImportDashboardModal`) and the dataset import modal
(`ImportDatasetModal`). -/

/-- An opaque `File` value (only its identity matters to the handlers). -/
structure FileRef where
  name : String
  deriving Repr, DecidableEq

/-- An opaque mouse/form event, identified so the embedding can state that a
callback receives the very event the handler did. -/
structure UIEvent where
  id : Nat
  deriving Repr, DecidableEq

/-- Callback invocations performed by the modal handlers, in order. -/
inductive ModalEvent where
  | onHide (e : UIEvent)
  | onFileSelect
  | onSubmit (file : Option FileRef)
  deriving Repr, DecidableEq

/-- `this.state` of `ImportDashboardModal`. -/
structure DashboardState where
  dashboardFile : Option FileRef
  deriving Repr, DecidableEq

/-- `this.state` of `ImportDatasetModal`. -/
structure DatasetState where
  datasetFile : Option FileRef
  deriving Repr, DecidableEq

/-- `!!error?.length` — true exactly when the optional error string is
present and non-empty. -/
def jsErrorTruthy : Option String → Bool
  | some e => decide (e.length ≠ 0)
  | none => false

/-- `onCancel(e)`: `setState({dashboardFile: undefined})` then
`this.props.onHide(e)`. -/
def ImportDashboardModal.onCancel (_st : DashboardState) (e : UIEvent) :
    DashboardState × List ModalEvent :=
  ({ dashboardFile := none }, [ModalEvent.onHide e])

/-- `changeFile(event)`: stores `(files && files[0]) || undefined` and calls
`onFileSelect`. -/
def ImportDashboardModal.changeFile (_st : DashboardState)
    (files : Option (List FileRef)) : DashboardState × List ModalEvent :=
  (⟨match files with
    | some (f :: _) => some f
    | _ => none⟩,
   [ModalEvent.onFileSelect])

/-- `submit(e)`: prevents the default, then `onSubmit(dashboardFile)`. -/
def ImportDashboardModal.submit (st : DashboardState) : List ModalEvent :=
  [ModalEvent.onSubmit st.dashboardFile]

/-- The `disabled` expression of the Upload button:
`!this.state.dashboardFile || !!error?.length`. -/
def ImportDashboardModal.uploadDisabled (st : DashboardState)
    (error : Option String) : Bool :=
  st.dashboardFile.isNone || jsErrorTruthy error

/-- `onCancel(e)` of the dataset modal. -/
def ImportDatasetModal.onCancel (_st : DatasetState) (e : UIEvent) :
    DatasetState × List ModalEvent :=
  ({ datasetFile := none }, [ModalEvent.onHide e])

/-- `changeFile(event)` of the dataset modal. -/
def ImportDatasetModal.changeFile (_st : DatasetState)
    (files : Option (List FileRef)) : DatasetState × List ModalEvent :=
  (⟨match files with
    | some (f :: _) => some f
    | _ => none⟩,
   [ModalEvent.onFileSelect])

/-- `submit(e)` of the dataset modal. -/
def ImportDatasetModal.submit (st : DatasetState) : List ModalEvent :=
  [ModalEvent.onSubmit st.datasetFile]

/-- The `disabled` expression of the dataset Upload button:
`!this.state.datasetFile || !!error?.length`. -/
def ImportDatasetModal.uploadDisabled (st : DatasetState)
    (error : Option String) : Bool :=
  st.datasetFile.isNone || jsErrorTruthy error

/-! ### Import helpers (the `post` / `importDataset` modules)

JS `encodeURI` percent-escapes every character outside its reserved and
unreserved sets; the others (including every character of the import
endpoints) pass through unchanged. -/

def uriHexDigit (n : Nat) : Char :=
  if n < 10 then Char.ofNat (48 + n) else Char.ofNat (55 + n)

def percentEncodeByte (b : UInt8) : String :=
  "%" ++ String.singleton (uriHexDigit (b.toNat / 16)) ++
    String.singleton (uriHexDigit (b.toNat % 16))

def uriUnescaped (c : Char) : Bool :=
  c.isAlphanum ||
    ['-', '_', '.', '!', '~', '*', Char.ofNat 39, '(', ')',
     ';', '/', '?', ':', '@', '&', '=', '+', '$', ',', '#'].contains c

def encodeURIChar (c : Char) : String :=
  if uriUnescaped c then String.singleton c
  else String.join (((String.singleton c).toUTF8.toList).map percentEncodeByte)

def encodeURI (s : String) : String :=
  String.join (s.data.map encodeURIChar)

/-- A `SupersetClient.post({endpoint, body})` request whose body is a
`FormData`: the endpoint and the appended (name, file) fields in order. -/
structure PostRequest where
  endpoint : String
  formFields : List (String × FileRef)
  deriving Repr, DecidableEq

/-- The dashboard import helper `post(dashboardFile)`: a `FormData` with the
single field `formData` holding the file, posted to the dashboard import
endpoint. -/
def post (dashboardFile : FileRef) : PostRequest :=
  { endpoint := encodeURI "/api/v1/dashboard/import/",
    formFields := [("formData", dashboardFile)] }

/-- The dataset import helper `importDataset(datasetFile)`. -/
def importDataset (datasetFile : FileRef) : PostRequest :=
  { endpoint := encodeURI "/api/v1/dataset/import/",
    formFields := [("formData", datasetFile)] }

/-! ### Chart list view (`ChartTable`) -/

inductive FilterValue where
  | str (s : String)
  | bool (b : Bool)
  deriving Repr, DecidableEq

structure ListFilter where
  id : String
  operator : String
  value : FilterValue
  deriving Repr, DecidableEq

structure SortColumn where
  id : String
  desc : Bool
  deriving Repr, DecidableEq

/-- The argument of `fetchData` as built in `getData`. -/
structure PageRequest where
  pageIndex : Nat
  pageSize : Nat
  sortBy : List SortColumn
  filters : List ListFilter
  deriving Repr, DecidableEq

def PAGE_SIZE : Nat := 3

/-- `getFilters(filterName)`: the `Mine` tab filters by creator
(`` value: `${user?.userId}` ``), anything else by favourite status. -/
def getFilters (userId : Option Nat) (filterName : String) : List ListFilter :=
  if filterName = "Mine" then
    [{ id := "created_by", operator := "rel_o_m",
       value := FilterValue.str (jsInterpolate userId) }]
  else
    [{ id := "id", operator := "chart_is_fav", value := FilterValue.bool true }]

/-- The page request `getData(filter)` passes to `fetchData`. -/
def getData (userId : Option Nat) (filter : String) : PageRequest :=
  { pageIndex := 0, pageSize := PAGE_SIZE,
    sortBy := [{ id := "changed_on_delta_humanized", desc := true }],
    filters := getFilters userId filter }

/-- The `fetchData` calls one invocation of `getData` performs — the body is
a single `return fetchData({…})`. -/
def getDataCalls (userId : Option Nat) (filter : String) : List PageRequest :=
  [getData userId filter]

/-- The resource-collection slice of the `useListViewResource` state. -/
structure ListViewState (α : Type) where
  resourceCollection : List α
  deriving Repr, DecidableEq

/-- Modelled from the spec: the `fetchData` success path of
`useListViewResource` (`src/views/CRUD/hooks`, not present under `src/`)
"updates resource collection and total count on success", replacing the
collection with the server response's `result` array. -/
def fetchDataSuccess {α : Type} (st : ListViewState α) (result : List α) :
    ListViewState α :=
  { st with resourceCollection := result }

/-! ### Theorems -/

/-- A non-empty string has non-zero length. -/
theorem string_length_ne_zero {e : String} (h : e ≠ "") : e.length ≠ 0 := by
  intro h0
  apply h
  cases e with
  | mk data =>
    cases data with
    | nil => rfl
    | cons c cs => simp [String.length] at h0

/-- Claim C2: when a schema-list fetch fails, the `.catch` continuation sets
the schema options to the empty list, stops the loading indicator, and
invokes `handleError` (once) with the error message; the current database
selection (and schema selection) is left unchanged, and — the continuation
being a total function consuming the rejection — no exception escapes to the
caller. -/
theorem c2_schema_fetch_failure (s : SelectorState) :
    (resolveSchemaFetchErr s).1.schemaOptions = [] ∧
    (resolveSchemaFetchErr s).1.schemaLoading = false ∧
    (resolveSchemaFetchErr s).1.currentDbId = s.currentDbId ∧
    (resolveSchemaFetchErr s).1.currentSchema = s.currentSchema ∧
    (resolveSchemaFetchErr s).2 = [SelEvent.handleError fetchSchemasErrorMsg] :=
  ⟨rfl, rfl, rfl, rfl, rfl⟩

/-- Claim C3: in every rendered state of the dashboard and dataset import
modals, the Upload control is disabled whenever no file is selected or a
non-empty error string is present — so submitting the import form with no
file selected is impossible through the Upload control. -/
theorem c3_upload_disabled_no_file_or_error (f : Option FileRef)
    (err : Option String) (h : f = none ∨ ∃ e, err = some e ∧ e ≠ "") :
    ImportDashboardModal.uploadDisabled ⟨f⟩ err = true ∧
    ImportDatasetModal.uploadDisabled ⟨f⟩ err = true := by
  have key : (f.isNone || jsErrorTruthy err) = true := by
    rcases h with h | ⟨e, he, hne⟩
    · subst h; simp
    · subst he
      simp [jsErrorTruthy, string_length_ne_zero hne]
  exact ⟨key, key⟩

/-- Witness for C3 at the initial modal state (no file, no error). -/
theorem c3_upload_disabled_no_file_or_error_witness :
    ImportDashboardModal.uploadDisabled ⟨none⟩ none = true ∧
    ImportDatasetModal.uploadDisabled ⟨none⟩ none = true :=
  c3_upload_disabled_no_file_or_error none none (Or.inl rfl)

/-- Claim C4: `dbMutator` invokes `handleError` (the access-denied callback)
exactly once when the response's result array is empty, and not at all when
it is non-empty. -/
theorem c4_db_list_empty_access_error (props : SelectorProps)
    (result : List DbRow) :
    (dbMutator props result).1.countP SelEvent.isHandleError =
      (if result.length = 0 then 1 else 0) := by
  cases result with
  | nil =>
      cases hg : props.hasGetDbList <;>
        simp [dbMutator, hg, SelEvent.isHandleError]
  | cons r rs =>
      cases hg : props.hasGetDbList <;>
        simp [dbMutator, hg, SelEvent.isHandleError]

/-- Claim C5: `onCancel(e)` on either import modal clears the stored file
(to `undefined`) and invokes `onHide` exactly once, with the same event
`e`. -/
theorem c5_onCancel_clears_file_and_hides (sd : DashboardState)
    (st : DatasetState) (e : UIEvent) :
    ImportDashboardModal.onCancel sd e = (⟨none⟩, [ModalEvent.onHide e]) ∧
    ImportDatasetModal.onCancel st e = (⟨none⟩, [ModalEvent.onHide e]) :=
  ⟨rfl, rfl⟩

/-- Claim C6: for every file, the dashboard import helper posts it as the
single multipart field `formData` to `/api/v1/dashboard/import/`, and the
dataset helper posts it as the same single field to
`/api/v1/dataset/import/`; no other fields are appended. -/
theorem c6_import_post_contract (f : FileRef) :
    (post f).endpoint = "/api/v1/dashboard/import/" ∧
    (post f).formFields = [("formData", f)] ∧
    (importDataset f).endpoint = "/api/v1/dataset/import/" ∧
    (importDataset f).formFields = [("formData", f)] := by
  have h1 : encodeURI "/api/v1/dashboard/import/" = "/api/v1/dashboard/import/" := by
    decide
  have h2 : encodeURI "/api/v1/dataset/import/" = "/api/v1/dataset/import/" := by
    decide
  exact ⟨h1, rfl, h2, rfl⟩

/-- Claim C7: for the chart list under the `Mine` filter with user id 42,
`getData` performs exactly one `fetchData` call, whose page request is
`{pageIndex: 0, pageSize: 3, sortBy: [{id: changed_on_delta_humanized,
desc: true}], filters: [{id: created_by, operator: rel_o_m, value: 42}]}`;
and on success `fetchData` replaces the resource collection with the
response's `result` array. -/
theorem c7_chart_mine_fetch :
    getDataCalls (some 42) "Mine" =
      [{ pageIndex := 0, pageSize := 3,
         sortBy := [{ id := "changed_on_delta_humanized", desc := true }],
         filters := [{ id := "created_by", operator := "rel_o_m",
                       value := FilterValue.str "42" }] }] ∧
    ∀ (st : ListViewState Nat) (result : List Nat),
      fetchDataSuccess st result = { resourceCollection := result } :=
  ⟨by decide, fun _ _ => rfl⟩

/-- Claim C8: for every non-zero database id `d` and boolean `force`,
`fetchSchemas` issues a fetch targeting
`/api/v1/database/{d}/schemas/?q=Q` where `Q` is the rison encoding of
exactly `{force: force}` (written out: `(force:!t)` when forced,
`(force:!f)` otherwise), and the issued request's force flag equals the
caller's. -/
theorem c8_schemas_endpoint_rison (props : SelectorProps) (s : SelectorState)
    (d : Nat) (force : Bool) (h : d ≠ 0) :
    (fetchSchemas props s (some d) force).2 =
      some ⟨d, force,
        "/api/v1/database/" ++ toString d ++
          ("/schemas/?q=" ++ (if force then "(force:!t)" else "(force:!f)"))⟩ := by
  have ht : risonQueryParams true = "(force:!t)" := by decide
  have hf : risonQueryParams false = "(force:!f)" := by decide
  cases force
  · simp [fetchSchemas, actualDbIdOf, jsTruthy, h, schemasEndpoint, hf]
  · simp [fetchSchemas, actualDbIdOf, jsTruthy, h, schemasEndpoint, ht]

/-- Witness for C8 at database id 7 with a forced refresh. -/
theorem c8_schemas_endpoint_rison_witness :
    (fetchSchemas ⟨1, false, false, false⟩ ⟨none, none, false, [], []⟩
        (some 7) true).2 =
      some ⟨7, true, "/api/v1/database/7/schemas/?q=(force:!t)"⟩ :=
  c8_schemas_endpoint_rison ⟨1, false, false, false⟩
    ⟨none, none, false, [], []⟩ 7 true (by decide)

/-- Claim C9: the `onChange` callback fired via `onSelectChange` during
`changeDataBase` receives the render-captured (pre-handler) `currentDbId`
and `currentSchema` — while the post-handler state already holds the newly
selected database id and the cleared schema. -/
theorem c9_onChange_receives_previous_state (props : SelectorProps)
    (s : SelectorState) (db : Option Db) (force : Bool) :
    ((changeDataBase props s db force).2.1.filter SelEvent.isOnChangeCb =
      if props.hasOnChange
        then [SelEvent.onChangeCb s.currentDbId s.currentSchema] else []) ∧
    (changeDataBase props s db force).1.currentDbId = db.map Db.id ∧
    (changeDataBase props s db force).1.currentSchema = none := by
  refine ⟨?_, rfl, rfl⟩
  cases hc : props.hasOnChange <;>
    simp [changeDataBase, onSelectChange, hc, SelEvent.isOnChangeCb]

/-- Claim C10: when `fetchSchemas` is called with a falsy database id
(`null` or `0`), it falls back to the component's `dbId` prop: if the prop
is truthy a schema fetch for the prop's id is still issued, and only when
both are falsy does the function issue no fetch and return an
already-resolved promise, leaving the state untouched. -/
theorem c10_fetchSchemas_falsy_fallback (props : SelectorProps)
    (s : SelectorState) (databaseId : Option Nat) (force : Bool)
    (h : jsTruthy databaseId = false) :
    (props.dbId ≠ 0 →
      (fetchSchemas props s databaseId force).2 =
        some ⟨props.dbId, force, schemasEndpoint props.dbId force⟩) ∧
    (props.dbId = 0 → fetchSchemas props s databaseId force = (s, none)) := by
  constructor
  · intro hp
    simp [fetchSchemas, actualDbIdOf, h, hp]
  · intro hp
    simp [fetchSchemas, actualDbIdOf, h, hp]

/-- Witness for C10: a `null` database id with prop `dbId = 5` still issues
the fetch for database 5. -/
theorem c10_fetchSchemas_falsy_fallback_witness :
    (fetchSchemas ⟨5, false, false, false⟩ ⟨none, none, false, [], []⟩
        none false).2 =
      some ⟨5, false, schemasEndpoint 5 false⟩ :=
  (c10_fetchSchemas_falsy_fallback ⟨5, false, false, false⟩
      ⟨none, none, false, [], []⟩ none false rfl).1 (by decide)

/-- Claim C1, counterexample to the claim as stated: with a schema fetch for
database 1 still in flight, `changeDataBase` to database 2 does clear the
options, but when the older in-flight fetch for database 1 resolves late
(here with database 1's schema list `["public"]`), its continuation
repopulates the options — a schema option belonging to a previously
selected database is present although the current database is 2. -/
theorem c1_stale_schema_counterexample :
    (((resolveSchemaFetchOk ⟨1, false, false, false⟩
        (changeDataBase ⟨1, false, false, false⟩
          ⟨some 1, none, true, [], [⟨1, false, schemasEndpoint 1 false⟩]⟩
          (some ⟨2⟩) false).1 ["public"]).1.currentDbId = some 2) ∧
    ((resolveSchemaFetchOk ⟨1, false, false, false⟩
        (changeDataBase ⟨1, false, false, false⟩
          ⟨some 1, none, true, [], [⟨1, false, schemasEndpoint 1 false⟩]⟩
          (some ⟨2⟩) false).1 ["public"]).1.schemaOptions =
      [schemaOptionOf "public"]) ∧
    [schemaOptionOf "public"] ≠ ([] : List SchemaOption)) := by
  decide

/-- Claim C1 as amended: every `changeDataBase(db, force)` empties the
schema options and clears the schema selection synchronously — before the
schema fetch it issues resolves — and the resolution of that newly issued
fetch installs exactly the new response's options (none of the previous
options survive it).  Stale options from a previous database can only
reappear through an older, uncancelled in-flight fetch resolving after the
change. -/
theorem c1_changeDataBase_clears_before_resolution (props : SelectorProps)
    (s : SelectorState) (db : Option Db) (force : Bool) :
    (changeDataBase props s db force).1.schemaOptions = [] ∧
    (changeDataBase props s db force).1.currentSchema = none ∧
    ∀ result : List String,
      (resolveSchemaFetchOk props (changeDataBase props s db force).1
          result).1.schemaOptions = result.map schemaOptionOf := by
  refine ⟨?_, rfl, fun result => rfl⟩
  rcases hm : actualDbIdOf (db.map Db.id) props.dbId with _ | n
  · simp [changeDataBase, fetchSchemas, hm]
  · by_cases hn : n = 0
    · simp [changeDataBase, fetchSchemas, hm, hn]
    · simp [changeDataBase, fetchSchemas, hm, hn]
